import Mathlib

/-!
Shallow embedding of the TimeWallet progression rule engine: the streak
update logic of `src/hooks/useStreaks.ts`, the challenge logic of
`useChallenges` (`joinChallenge`, `updateChallengeProgress`), and the goal
lifecycle handlers of the two `GoalCard` component variants
(`toggleTask`, `completeGoalEarly`, `markGoalFailed`, `deleteGoal`).

Dates that the code handles at date-only precision (streak dates) are
embedded as integer day numbers; instants (deadlines, `new Date()`) are
embedded as integer millisecond timestamps.  Remote writes can fail; each
fallible write is given an explicit Boolean failure flag, mirroring the
`{ data, error }` results of the store client.
-/

namespace TimeWallet

/-- A `user_streaks` row: current streak, longest streak, last streak date
(as a day number, `none` when the column is null) and total completed
goals.  Mirrors the `UserStreak` interface of `useStreaks.ts`. -/
structure UserStreak where
  current_streak : Int
  longest_streak : Int
  last_streak_date : Option Int
  total_goals_completed : Int
  deriving Repr, DecidableEq

/-- A `user_badges` row as held in the hook state (id and timestamp
omitted: the logic only reads `badge_type` and writes both fields). -/
structure BadgeRow where
  badge_type : String
  badge_name : String
  deriving Repr, DecidableEq

/-- The record `updateStreak` writes, or `none` for the `diffDays === 0`
early return.  Mirrors lines 71-97 of `useStreaks.ts`: null last date gives
streak 1; day difference 1 increments; any other nonzero difference resets
to 1; then `longest = max(longest, current)`, the last date becomes today
and the total is incremented.  Both dates are date-only (UTC midnight), so
the `Math.floor` of the millisecond quotient is exactly `today - lastDay`. -/
def streakCore (s : UserStreak) (today : Int) : Option UserStreak :=
  match s.last_streak_date with
  | none =>
      some { current_streak := 1,
             longest_streak := max s.longest_streak 1,
             last_streak_date := some today,
             total_goals_completed := s.total_goals_completed + 1 }
  | some lastDay =>
      let diffDays := today - lastDay
      if diffDays = 0 then
        none
      else
        let newCurrent := if diffDays = 1 then s.current_streak + 1 else 1
        some { current_streak := newCurrent,
               longest_streak := max s.longest_streak newCurrent,
               last_streak_date := some today,
               total_goals_completed := s.total_goals_completed + 1 }

/-- Observable outcome of one `updateStreak` call: the value returned to
the caller, the hook's local streak state afterwards, how many update
writes were issued, and the `(currentStreak, totalGoals)` arguments passed
to `checkForBadges` when it ran (`none` when it did not run). -/
structure UpdateStreakOutcome where
  ret : Option UserStreak
  localStreak : UserStreak
  writesIssued : Nat
  badgeEval : Option (Int × Int)
  deriving Repr, DecidableEq

/-- `updateStreak` of `useStreaks.ts` (lines 68-119).  `writeFails` is the
error flag of the single `update` call: on error the function logs and
returns null without touching local state or evaluating badges; on success
it stores the written row and evaluates badges with the new streak and the
new total. -/
def updateStreak (s : UserStreak) (today : Int) (writeFails : Bool) :
    UpdateStreakOutcome :=
  match streakCore s today with
  | none =>
      { ret := some s, localStreak := s, writesIssued := 0, badgeEval := none }
  | some newRec =>
      if writeFails then
        { ret := none, localStreak := s, writesIssued := 1, badgeEval := none }
      else
        { ret := some newRec, localStreak := newRec, writesIssued := 1,
          badgeEval := some (newRec.current_streak, newRec.total_goals_completed) }

/-- Whether a badge of the given type is already in the loaded badge list
(`badges.find(b => b.badge_type === type)` in the hook). -/
def hasBadge (badges : List BadgeRow) (t : String) : Bool :=
  badges.any (fun b => b.badge_type == t)

/-- One conditional push onto `badgesToAward` in `checkForBadges`: the
badge is queued when the threshold holds and the type is not yet held. -/
def awardIf (thresholdMet : Bool) (alreadyHeld : Bool) (t n : String) :
    List BadgeRow :=
  if thresholdMet && !alreadyHeld then [⟨t, n⟩] else []

/-- The `badgesToAward` list built by `checkForBadges` (lines 121-143 of
`useStreaks.ts`): the five fixed threshold badges, each guarded by its
metric threshold and by absence from the loaded badge list. -/
def badgesToAward (currentStreak totalGoals : Int) (badges : List BadgeRow) :
    List BadgeRow :=
  awardIf (decide (currentStreak ≥ 7)) (hasBadge badges "streak_7")
      "streak_7" "Week Warrior" ++
  awardIf (decide (currentStreak ≥ 30)) (hasBadge badges "streak_30")
      "streak_30" "Monthly Master" ++
  awardIf (decide (totalGoals ≥ 10)) (hasBadge badges "goals_10")
      "goals_10" "Goal Getter" ++
  awardIf (decide (totalGoals ≥ 50)) (hasBadge badges "goals_50")
      "goals_50" "Achievement Hunter" ++
  awardIf (decide (totalGoals ≥ 100)) (hasBadge badges "goals_100")
      "goals_100" "Century Champion"

/-- Number of badges of a given type in a list. -/
def countType (l : List BadgeRow) (t : String) : Nat :=
  (l.filter (fun b => b.badge_type == t)).length

/-! ## Challenges (`useChallenges`) -/

/-- A catalog `challenges` row (fields the progression logic reads). -/
structure Challenge where
  id : String
  name : String
  duration_days : Int
  target_goals : Int
  badge_reward : String
  deriving Repr, DecidableEq

/-- A `user_challenges` row; `started_at` and `completed_at` are
millisecond timestamps. -/
structure UserChallenge where
  id : String
  challenge_id : String
  started_at : Int
  completed_at : Option Int
  goals_completed : Int
  status : String
  deriving Repr, DecidableEq

/-- Milliseconds in one day; `endDate.setDate(endDate.getDate() + d)`
advances the instant by `d` whole days. -/
def msPerDay : Int := 86400000

/-- Result of one iteration of the `updateChallengeProgress` loop for a
single user challenge: the updated row and the badge rows inserted. -/
structure ChallengeStep where
  uc : UserChallenge
  badgeInserts : List BadgeRow
  deriving Repr, DecidableEq

/-- One iteration of the loop in `updateChallengeProgress`
(`useChallenges`, lines 93-141): look the catalog challenge up by id
(skip the row when absent), increment `goals_completed`, mark completed
when the new count reaches `target_goals`, otherwise mark failed when
`now` is strictly past `started_at + duration_days`; on completion set
`completed_at` and insert a reward badge named after the challenge with
the challenge's `badge_reward` type — with no check against any badge
list. -/
def updateChallengeStep (catalog : List Challenge) (now : Int)
    (uc : UserChallenge) : ChallengeStep :=
  match catalog.find? (fun c => c.id == uc.challenge_id) with
  | none => ⟨uc, []⟩
  | some challenge =>
      let newGoalsCompleted := uc.goals_completed + 1
      let isCompleted := newGoalsCompleted ≥ challenge.target_goals
      let endDate := uc.started_at + challenge.duration_days * msPerDay
      let isExpired := now > endDate
      let newStatus :=
        if isCompleted then "completed"
        else if isExpired then "failed"
        else uc.status
      ⟨{ uc with goals_completed := newGoalsCompleted,
                 status := newStatus,
                 completed_at := if isCompleted then some now else none },
       if isCompleted then [⟨challenge.badge_reward, challenge.name⟩] else []⟩

/-- `updateChallengeProgress` (lines 88-142): iterate over the active
rows of the loaded list, and for each one found in the catalog apply the
per-row step, replacing the row by id in the evolving list and appending
the step's badge inserts.  Each step reads the original row captured when
the active list was built, exactly as the loop closes over `uc`. -/
def updateChallengeProgress (catalog : List Challenge) (now : Int)
    (ucs : List UserChallenge) : List UserChallenge × List BadgeRow :=
  (ucs.filter (fun uc => uc.status == "active")).foldl
    (fun acc uc =>
      match catalog.find? (fun c => c.id == uc.challenge_id) with
      | none => acc
      | some _ =>
          let step := updateChallengeStep catalog now uc
          (acc.1.map (fun c => if c.id == uc.id then step.uc else c),
           acc.2 ++ step.badgeInserts))
    (ucs, [])

/-- `joinChallenge` (lines 61-86): a no-op returning null when the loaded
list already holds an active row for the challenge id; otherwise insert a
fresh row (`newRow` stands for the row the store returns for the insert;
`insertErr` is the insert's error flag) and prepend it to local state. -/
def joinChallenge (ucs : List UserChallenge) (challengeId : String)
    (newRow : UserChallenge) (insertErr : Bool) :
    Option UserChallenge × List UserChallenge :=
  if (ucs.find? (fun uc =>
        uc.challenge_id == challengeId && uc.status == "active")).isSome then
    (none, ucs)
  else if insertErr then
    (none, ucs)
  else
    (some newRow, newRow :: ucs)

/-- Number of active user-challenge rows for a given challenge id. -/
def countActive (ucs : List UserChallenge) (cid : String) : Nat :=
  (ucs.filter (fun uc =>
    uc.challenge_id == cid && uc.status == "active")).length

/-! ## Goal lifecycle (the two `GoalCard` variants) -/

/-- A `tasks` row (fields the toggle logic reads). -/
structure TaskRow where
  id : String
  completed : Bool
  deriving Repr, DecidableEq

/-- A `goals` row; `deadline` and `last_progress_update` are millisecond
timestamps. -/
structure GoalRow where
  id : String
  title : String
  deadline : Int
  time_allocated : Int
  status : String
  last_progress_update : Option Int
  deriving Repr, DecidableEq

/-- A `transactions` row as inserted by the completion path. -/
structure TransactionRow where
  goal_id : Option String
  type : String
  amount : Int
  reason : String
  deriving Repr, DecidableEq

/-- The remote rows one `GoalCard` touches: the goal, its task list, the
owning profile's balance and the transaction ledger. -/
structure CardState where
  goal : GoalRow
  tasks : List TaskRow
  balance : Int
  transactions : List TransactionRow
  deriving Repr, DecidableEq

/-- `completeGoalEarly` of the first `GoalCard` variant: mark the goal
completed (stop on error), then atomically increment the balance by
`time_allocated` via the `increment_balance` procedure, and on its
success insert a credit transaction whose reason quotes the goal's
title.  `goalErr`, `profileErr`, `txErr` are the three writes' error
flags; the transaction insert's error is not checked, so a failed insert
only loses the ledger row. -/
def completeGoalEarlyV1 (st : CardState) (goalErr profileErr txErr : Bool) :
    CardState :=
  if goalErr then st
  else
    let st1 := { st with goal := { st.goal with status := "completed" } }
    if profileErr then st1
    else
      let st2 := { st1 with balance := st1.balance + st1.goal.time_allocated }
      if txErr then st2
      else
        { st2 with transactions := st2.transactions ++
            [⟨some st2.goal.id, "credit", st2.goal.time_allocated,
              "Completed goal: \"" ++ st2.goal.title ++ "\""⟩] }

/-- `completeGoalEarly` of the second `GoalCard` variant: mark the goal
completed (stop on error, reverting the optimistic local status), then
atomically increment the balance by `time_allocated`.  No transaction is
inserted in this variant. -/
def completeGoalEarlyV2 (st : CardState) (goalErr profileErr : Bool) :
    CardState :=
  if goalErr then st
  else
    let st1 := { st with goal := { st.goal with status := "completed" } }
    if profileErr then st1
    else { st1 with balance := st1.balance + st1.goal.time_allocated }

/-- `markGoalFailed` of the second variant: set the goal's status to
failed; nothing else is touched. -/
def markGoalFailed (st : CardState) (goalErr : Bool) : CardState :=
  if goalErr then st
  else { st with goal := { st.goal with status := "failed" } }

/-- The locally updated task list after one toggle: the clicked task's
completed flag becomes the negation of its captured value. -/
def toggledTasks (tasks : List TaskRow) (taskId : String)
    (completed : Bool) : List TaskRow :=
  tasks.map (fun t =>
    if t.id == taskId then { t with completed := !completed } else t)

/-- `toggleTask` of the first `GoalCard` variant (lines 209-241 of its
file): flip the task's completed flag (stop on error), stamp the goal's
`last_progress_update`, and when every task is now completed, the
deadline is strictly in the future and the goal is ongoing, run
`completeGoalEarly`.  At or past the deadline nothing further happens in
this variant. -/
def toggleTaskV1 (st : CardState) (taskId : String) (completed : Bool)
    (now : Int) (taskErr goalErr profileErr txErr : Bool) : CardState :=
  if taskErr then st
  else
    let updatedTasks := toggledTasks st.tasks taskId completed
    let st1 := { st with
                 tasks := updatedTasks,
                 goal := { st.goal with last_progress_update := some now } }
    let allCompleted := updatedTasks.all (fun t => t.completed)
    let beforeDeadline := st1.goal.deadline > now
    if allCompleted && beforeDeadline && (st1.goal.status == "ongoing") then
      completeGoalEarlyV1 st1 goalErr profileErr txErr
    else st1

/-- `toggleTask` of the second `GoalCard` variant (lines 513-551 of its
file): flip the task's completed flag (stop on error), stamp
`last_progress_update`, and when every task is now completed and the goal
is ongoing, run `markGoalFailed` when the deadline is strictly in the
past, otherwise `completeGoalEarly`. -/
def toggleTaskV2 (st : CardState) (taskId : String) (completed : Bool)
    (now : Int) (taskErr goalErr profileErr : Bool) : CardState :=
  if taskErr then st
  else
    let updatedTasks := toggledTasks st.tasks taskId completed
    let st1 := { st with
                 tasks := updatedTasks,
                 goal := { st.goal with last_progress_update := some now } }
    let allCompleted := updatedTasks.all (fun t => t.completed)
    let isOverdueNow := st1.goal.deadline < now
    if allCompleted && (st1.goal.status == "ongoing") then
      if isOverdueNow then markGoalFailed st1 goalErr
      else completeGoalEarlyV2 st1 goalErr profileErr
    else st1

/-- Result of `deleteGoal`: the goal (when its row survives), the task
list, and the untouched balance and ledger. -/
structure DeleteOutcome where
  goal : Option GoalRow
  tasks : List TaskRow
  balance : Int
  transactions : List TransactionRow
  deriving Repr, DecidableEq

/-- `deleteGoal` (identical in both variants): delete the goal's tasks
(stop on error), then delete the goal row.  There is no refund: balance
and transactions are never touched. -/
def deleteGoal (st : CardState) (tasksErr goalErr : Bool) : DeleteOutcome :=
  if tasksErr then
    ⟨some st.goal, st.tasks, st.balance, st.transactions⟩
  else if goalErr then
    ⟨some st.goal, [], st.balance, st.transactions⟩
  else
    ⟨none, [], st.balance, st.transactions⟩

/-! ## Theorems -/

/-- C3: for every streak update — a null stored last date gives current
streak 1; a whole-day difference of exactly 1 gives the previous current
streak plus 1; a difference exceeding 1 resets to 1; and in every writing
case the new longest streak is the max of the old longest and the new
current streak, and the total completed count increments by exactly 1. -/
theorem updateStreak_rules (s : UserStreak) (today : Int) :
    (s.last_streak_date = none →
      (updateStreak s today false).localStreak.current_streak = 1) ∧
    (∀ d, s.last_streak_date = some d → today - d = 1 →
      (updateStreak s today false).localStreak.current_streak =
        s.current_streak + 1) ∧
    (∀ d, s.last_streak_date = some d → today - d > 1 →
      (updateStreak s today false).localStreak.current_streak = 1) ∧
    ((updateStreak s today false).writesIssued = 1 →
      (updateStreak s today false).localStreak.longest_streak =
        max s.longest_streak
          (updateStreak s today false).localStreak.current_streak ∧
      (updateStreak s today false).localStreak.total_goals_completed =
        s.total_goals_completed + 1) := by
  refine ⟨?_, ?_, ?_, ?_⟩
  · intro h
    simp [updateStreak, streakCore, h]
  · intro d hd hdiff
    simp [updateStreak, streakCore, hd, hdiff]
  · intro d hd hdiff
    have h0 : ¬ (today - d = 0) := by omega
    have h1 : ¬ (today - d = 1) := by omega
    simp [updateStreak, streakCore, hd, h0, h1]
  · intro hw
    rcases hs : s.last_streak_date with _ | d
    · simp [updateStreak, streakCore, hs]
    · by_cases h0 : today - d = 0
      · simp [updateStreak, streakCore, hs, h0] at hw
      · by_cases h1 : today - d = 1 <;>
          simp [updateStreak, streakCore, hs, h0, h1]

/-- Witness for C3: a consecutive-day update at a concrete record. -/
theorem updateStreak_rules_witness :
    (updateStreak ⟨3, 5, some 10, 7⟩ 11 false).localStreak.current_streak =
      3 + 1 :=
  (updateStreak_rules ⟨3, 5, some 10, 7⟩ 11).2.1 10 rfl (by decide)

/-- C4: a streak update on the same calendar day as the stored last
streak date returns the old record early: no write is issued, the local
streak state is unchanged, and no badge evaluation occurs. -/
theorem updateStreak_same_day_noop (s : UserStreak) (today d : Int)
    (writeFails : Bool) (hd : s.last_streak_date = some d)
    (h0 : today - d = 0) :
    updateStreak s today writeFails =
      { ret := some s, localStreak := s, writesIssued := 0,
        badgeEval := none } := by
  simp [updateStreak, streakCore, hd, h0]

/-- Witness for C4 at a concrete record and date. -/
theorem updateStreak_same_day_noop_witness :
    updateStreak ⟨3, 5, some 10, 7⟩ 10 false =
      { ret := some ⟨3, 5, some 10, 7⟩, localStreak := ⟨3, 5, some 10, 7⟩,
        writesIssued := 0, badgeEval := none } :=
  updateStreak_same_day_noop ⟨3, 5, some 10, 7⟩ 10 10 false rfl (by decide)

/-- C9: when the streak update's remote write fails, `updateStreak`
returns null, the local streak state is unchanged, no badge evaluation
runs, and exactly one write was attempted (no retry). -/
theorem updateStreak_write_failure (s : UserStreak) (today : Int)
    (hw : (streakCore s today).isSome) :
    (updateStreak s today true).ret = none ∧
    (updateStreak s today true).localStreak = s ∧
    (updateStreak s today true).badgeEval = none ∧
    (updateStreak s today true).writesIssued = 1 := by
  rcases h : streakCore s today with _ | r
  · rw [h] at hw
    simp at hw
  · simp [updateStreak, h]

/-- Witness for C9: a failing write on a consecutive-day update. -/
theorem updateStreak_write_failure_witness :
    (updateStreak ⟨3, 5, some 10, 7⟩ 11 true).ret = none ∧
    (updateStreak ⟨3, 5, some 10, 7⟩ 11 true).localStreak = ⟨3, 5, some 10, 7⟩ ∧
    (updateStreak ⟨3, 5, some 10, 7⟩ 11 true).badgeEval = none ∧
    (updateStreak ⟨3, 5, some 10, 7⟩ 11 true).writesIssued = 1 :=
  updateStreak_write_failure ⟨3, 5, some 10, 7⟩ 11 (by decide)

/-- C10: when the stored last streak date lies strictly after today
(negative whole-day difference), `updateStreak` does not no-op: it issues
a write, resets the current streak to 1 and sets the last streak date to
today, exactly the broken-streak record. -/
theorem updateStreak_negative_diff (s : UserStreak) (today d : Int)
    (hd : s.last_streak_date = some d) (hneg : today - d < 0) :
    (updateStreak s today false).writesIssued = 1 ∧
    (updateStreak s today false).localStreak =
      { current_streak := 1, longest_streak := max s.longest_streak 1,
        last_streak_date := some today,
        total_goals_completed := s.total_goals_completed + 1 } := by
  have h0 : ¬ (today - d = 0) := by omega
  have h1 : ¬ (today - d = 1) := by omega
  simp [updateStreak, streakCore, hd, h0, h1]

/-- Witness for C10: the stored date is two days after today. -/
theorem updateStreak_negative_diff_witness :
    (updateStreak ⟨3, 5, some 12, 7⟩ 10 false).writesIssued = 1 ∧
    (updateStreak ⟨3, 5, some 12, 7⟩ 10 false).localStreak =
      { current_streak := 1, longest_streak := max 5 1,
        last_streak_date := some 10, total_goals_completed := 7 + 1 } :=
  updateStreak_negative_diff ⟨3, 5, some 12, 7⟩ 10 12 rfl (by decide)

/-- C8: deleting a goal (with its tasks) never changes the owning
profile's balance and never appends a transaction, whatever the goal's
state and whichever deletes fail. -/
theorem deleteGoal_preserves_ledger (st : CardState) (tasksErr goalErr : Bool) :
    (deleteGoal st tasksErr goalErr).balance = st.balance ∧
    (deleteGoal st tasksErr goalErr).transactions = st.transactions := by
  cases tasksErr <;> cases goalErr <;> simp [deleteGoal]

/-- C7: joining a challenge the user is already active in is a no-op —
it returns null and leaves the loaded list unchanged — and joining
preserves "at most one active user challenge per challenge id" (the
inserted row being the store's fresh active row for that challenge). -/
theorem joinChallenge_at_most_one_active (ucs : List UserChallenge)
    (cid : String) (newRow : UserChallenge) (insertErr : Bool)
    (hid : newRow.challenge_id = cid) (hst : newRow.status = "active") :
    ((∃ uc ∈ ucs, uc.challenge_id = cid ∧ uc.status = "active") →
      joinChallenge ucs cid newRow insertErr = (none, ucs)) ∧
    (∀ c, countActive ucs c ≤ 1 →
      countActive (joinChallenge ucs cid newRow insertErr).2 c ≤ 1) := by
  constructor
  · rintro ⟨uc, hm, h1, h2⟩
    have hs : (ucs.find? (fun uc =>
        uc.challenge_id == cid && uc.status == "active")).isSome :=
      List.find?_isSome.mpr ⟨uc, hm, by simp [h1, h2]⟩
    simp [joinChallenge, hs]
  · intro c hc
    by_cases hs : (ucs.find? (fun uc =>
        uc.challenge_id == cid && uc.status == "active")).isSome
    · simpa [joinChallenge, hs] using hc
    · cases insertErr with
      | true => simpa [joinChallenge, hs] using hc
      | false =>
          have hres : (joinChallenge ucs cid newRow false).2 = newRow :: ucs := by
            simp [joinChallenge, hs]
          rw [hres]
          by_cases hcc : c = cid
          · subst hcc
            have hnone : ucs.find? (fun uc =>
                uc.challenge_id == c && uc.status == "active") = none := by
              rcases h : ucs.find? (fun uc =>
                  uc.challenge_id == c && uc.status == "active") with _ | x
              · exact h
              · exact absurd (by simp [h]) hs
            have hempty : ucs.filter (fun uc =>
                uc.challenge_id == c && uc.status == "active") = [] := by
              rw [List.filter_eq_nil_iff]
              intro x hx
              simpa using List.find?_eq_none.mp hnone x hx
            simp [countActive, List.filter_cons, hid, hst, hempty]
          · have hpred : (newRow.challenge_id == c &&
                newRow.status == "active") = false := by
              simp [hid]
              intro h
              exact absurd h.symm hcc
            simpa [countActive, List.filter_cons, hpred] using hc

/-- Witness for C7: a list already active on challenge `c1`. -/
theorem joinChallenge_at_most_one_active_witness :
    joinChallenge [⟨"u1", "c1", 0, none, 0, "active"⟩] "c1"
        ⟨"u2", "c1", 5, none, 0, "active"⟩ false =
      (none, [⟨"u1", "c1", 0, none, 0, "active"⟩]) :=
  (joinChallenge_at_most_one_active [⟨"u1", "c1", 0, none, 0, "active"⟩]
      "c1" ⟨"u2", "c1", 5, none, 0, "active"⟩ false rfl rfl).1
    ⟨⟨"u1", "c1", 0, none, 0, "active"⟩, by simp, rfl, rfl⟩

/-- C6: a challenge-progress update on an active user challenge whose
catalog row is found increments `goals_completed` by 1; the row becomes
completed exactly when the new count reaches the catalog target — then
the completion timestamp is set and a reward badge named after the
challenge with the challenge's reward type is inserted; otherwise, when
the current time is strictly past start plus the duration, the row
becomes failed; otherwise it stays active, and in both non-completion
cases no badge is inserted. -/
theorem updateChallengeStep_rules (catalog : List Challenge) (now : Int)
    (uc : UserChallenge) (c : Challenge)
    (hfind : catalog.find? (fun ch => ch.id == uc.challenge_id) = some c)
    (hactive : uc.status = "active") :
    (updateChallengeStep catalog now uc).uc.goals_completed =
        uc.goals_completed + 1 ∧
    ((updateChallengeStep catalog now uc).uc.status = "completed" ↔
        uc.goals_completed + 1 ≥ c.target_goals) ∧
    (uc.goals_completed + 1 ≥ c.target_goals →
        (updateChallengeStep catalog now uc).uc.completed_at = some now ∧
        (updateChallengeStep catalog now uc).badgeInserts =
          [⟨c.badge_reward, c.name⟩]) ∧
    (uc.goals_completed + 1 < c.target_goals →
        now > uc.started_at + c.duration_days * msPerDay →
        (updateChallengeStep catalog now uc).uc.status = "failed" ∧
        (updateChallengeStep catalog now uc).badgeInserts = []) ∧
    (uc.goals_completed + 1 < c.target_goals →
        now ≤ uc.started_at + c.duration_days * msPerDay →
        (updateChallengeStep catalog now uc).uc.status = "active" ∧
        (updateChallengeStep catalog now uc).badgeInserts = []) := by
  by_cases hcomp : uc.goals_completed + 1 ≥ c.target_goals
  · refine ⟨?_, ?_, ?_, ?_, ?_⟩ <;>
      simp [updateChallengeStep, hfind, hcomp]
  · by_cases hexp : now > uc.started_at + c.duration_days * msPerDay
    · refine ⟨?_, ?_, ?_, ?_, ?_⟩ <;>
        simp [updateChallengeStep, hfind, hcomp, hexp]
    · refine ⟨?_, ?_, ?_, ?_, ?_⟩ <;>
        simp [updateChallengeStep, hfind, hcomp, hexp, hactive]

/-- Witness for C6: one goal short of the target, completed in time. -/
theorem updateChallengeStep_rules_witness :
    (updateChallengeStep [⟨"c1", "Deep Focus", 7, 5, "focus_master"⟩] 100
        ⟨"u1", "c1", 0, none, 4, "active"⟩).uc.goals_completed = 4 + 1 :=
  (updateChallengeStep_rules [⟨"c1", "Deep Focus", 7, 5, "focus_master"⟩] 100
      ⟨"u1", "c1", 0, none, 4, "active"⟩ ⟨"c1", "Deep Focus", 7, 5, "focus_master"⟩
      (by decide) rfl).1

/-- Counting badges of one type distributes over append. -/
theorem countType_append (l1 l2 : List BadgeRow) (t : String) :
    countType (l1 ++ l2) t = countType l1 t + countType l2 t := by
  simp [countType, List.filter_append]

/-- One conditional award contributes a badge of type `t` exactly when
its threshold holds, the type is not already held, and its type is `t`. -/
theorem countType_awardIf (c a : Bool) (ty n t : String) :
    countType (awardIf c a ty n) t =
      if c && !a && (ty == t) then 1 else 0 := by
  cases c <;> cases a <;> by_cases h : ty = t <;>
    simp [awardIf, countType, h]

/-- A conditional award guarded by presence in the loaded badge list
never contributes a badge of a type that list already holds. -/
theorem countType_awardIf_of_held (badges : List BadgeRow) (t : String)
    (hb : hasBadge badges t = true) (c : Bool) (ty n : String) :
    countType (awardIf c (hasBadge badges ty) ty n) t = 0 := by
  by_cases h : ty = t
  · subst h
    simp [countType_awardIf, hb]
  · simp [countType_awardIf, h]

/-- C5 (amended): the threshold badges of `checkForBadges` are inserted
at most once per badge type relative to the session's loaded badge list —
no award for a type already held, and at most one award per type in one
evaluation; but the reward badge on challenge completion is inserted
unconditionally, without consulting any badge list. -/
theorem badge_award_idempotent (cs tg : Int) (badges : List BadgeRow)
    (t : String) :
    (hasBadge badges t = true →
      countType (badgesToAward cs tg badges) t = 0) ∧
    countType (badgesToAward cs tg badges) t ≤ 1 ∧
    (∀ (catalog : List Challenge) (now : Int) (uc : UserChallenge)
        (c : Challenge),
      catalog.find? (fun ch => ch.id == uc.challenge_id) = some c →
      uc.goals_completed + 1 ≥ c.target_goals →
      (updateChallengeStep catalog now uc).badgeInserts =
        [⟨c.badge_reward, c.name⟩]) := by
  refine ⟨?_, ?_, ?_⟩
  · intro hb
    simp [badgesToAward, countType_append, countType_awardIf_of_held badges t hb]
  · by_cases h7 : "streak_7" = t
    · subst h7
      simp [badgesToAward, countType_append, countType_awardIf]
      split <;> simp
    · by_cases h30 : "streak_30" = t
      · subst h30
        simp [badgesToAward, countType_append, countType_awardIf,
              beq_eq_false_iff_ne.mpr h7]
        split <;> simp
      · by_cases h10 : "goals_10" = t
        · subst h10
          simp [badgesToAward, countType_append, countType_awardIf,
                beq_eq_false_iff_ne.mpr h7, beq_eq_false_iff_ne.mpr h30]
          split <;> simp
        · by_cases h50 : "goals_50" = t
          · subst h50
            simp [badgesToAward, countType_append, countType_awardIf,
                  beq_eq_false_iff_ne.mpr h7, beq_eq_false_iff_ne.mpr h30,
                  beq_eq_false_iff_ne.mpr h10]
            split <;> simp
          · by_cases h100 : "goals_100" = t
            · subst h100
              simp [badgesToAward, countType_append, countType_awardIf,
                    beq_eq_false_iff_ne.mpr h7, beq_eq_false_iff_ne.mpr h30,
                    beq_eq_false_iff_ne.mpr h10, beq_eq_false_iff_ne.mpr h50]
              split <;> simp
            · simp [badgesToAward, countType_append, countType_awardIf,
                    beq_eq_false_iff_ne.mpr h7, beq_eq_false_iff_ne.mpr h30,
                    beq_eq_false_iff_ne.mpr h10, beq_eq_false_iff_ne.mpr h50,
                    beq_eq_false_iff_ne.mpr h100]
  · intro catalog now uc c hfind hcomp
    simp [updateChallengeStep, hfind, hcomp]

/-- Witness for C5's amended theorem: a user already holding the
`streak_7` badge is not awarded it again at streak 7. -/
theorem badge_award_idempotent_witness :
    countType (badgesToAward 7 0 [⟨"streak_7", "Week Warrior"⟩])
      "streak_7" = 0 :=
  (badge_award_idempotent 7 0 [⟨"streak_7", "Week Warrior"⟩] "streak_7").1
    (by decide)

/-- Counterexample to C5 as stated: one `updateChallengeProgress` call
over two active challenges that share the reward type `gold` (both one
goal from their targets, before expiry) inserts two badge rows of the
same type for the user, so reward-badge insertion is not at-most-once
per (user, badge type). -/
theorem challenge_reward_badge_duplicated :
    countType (updateChallengeProgress
        [⟨"c1", "Gold Rush", 7, 1, "gold"⟩, ⟨"c2", "Gold Sprint", 7, 1, "gold"⟩]
        0
        [⟨"u1", "c1", 0, none, 0, "active"⟩,
         ⟨"u2", "c2", 0, none, 0, "active"⟩]).2 "gold" = 2 := by
  decide

/-- C1 (amended): when the last task of an ongoing goal is toggled
completed strictly before the deadline with no write failing, both
`GoalCard` variants set the goal's status to completed and increment the
owning balance by exactly `time_allocated` via the increment procedure;
the first variant appends exactly one credit transaction whose reason
quotes the goal's title, while the second variant appends no
transaction. -/
theorem goal_completion_before_deadline (st : CardState) (taskId : String)
    (completed : Bool) (now : Int)
    (hall : (toggledTasks st.tasks taskId completed).all
        (fun t => t.completed) = true)
    (hdl : st.goal.deadline > now)
    (hst : st.goal.status = "ongoing") :
    ((toggleTaskV1 st taskId completed now false false false false).goal.status =
        "completed" ∧
     (toggleTaskV1 st taskId completed now false false false false).balance =
        st.balance + st.goal.time_allocated ∧
     (toggleTaskV1 st taskId completed now false false false false).transactions =
        st.transactions ++
          [⟨some st.goal.id, "credit", st.goal.time_allocated,
            "Completed goal: \"" ++ st.goal.title ++ "\""⟩]) ∧
    ((toggleTaskV2 st taskId completed now false false false).goal.status =
        "completed" ∧
     (toggleTaskV2 st taskId completed now false false false).balance =
        st.balance + st.goal.time_allocated ∧
     (toggleTaskV2 st taskId completed now false false false).transactions =
        st.transactions) := by
  have hnotover : ¬ (st.goal.deadline < now) := by omega
  constructor
  · refine ⟨?_, ?_, ?_⟩ <;>
      simp [toggleTaskV1, completeGoalEarlyV1, hall, hdl, hst]
  · refine ⟨?_, ?_, ?_⟩ <;>
      simp [toggleTaskV2, completeGoalEarlyV2, markGoalFailed, hall, hdl,
            hst, hnotover]

/-- Witness for C1's amended theorem: the first variant's ledger append
at a concrete one-task goal completed before its deadline. -/
theorem goal_completion_before_deadline_witness :
    (toggleTaskV1 ⟨⟨"g1", "Learn Lean", 1000, 3600, "ongoing", none⟩,
        [⟨"t1", false⟩], 0, []⟩ "t1" false 500
        false false false false).transactions =
      [] ++ [⟨some "g1", "credit", 3600,
              "Completed goal: \"" ++ "Learn Lean" ++ "\""⟩] :=
  ((goal_completion_before_deadline
      ⟨⟨"g1", "Learn Lean", 1000, 3600, "ongoing", none⟩,
       [⟨"t1", false⟩], 0, []⟩ "t1" false 500
      (by decide) (by decide) rfl).1).2.2

/-- Counterexample to C1 as stated: in the second `GoalCard` variant a
goal-completion event strictly before the deadline completes the goal
and credits the balance but appends no transaction at all. -/
theorem v2_completion_appends_no_transaction :
    (toggleTaskV2 ⟨⟨"g1", "Read a book", 1000, 3600, "ongoing", none⟩,
        [⟨"t1", false⟩], 0, []⟩ "t1" false 500 false false false).goal.status =
      "completed" ∧
    (toggleTaskV2 ⟨⟨"g1", "Read a book", 1000, 3600, "ongoing", none⟩,
        [⟨"t1", false⟩], 0, []⟩ "t1" false 500 false false false).balance =
      3600 ∧
    (toggleTaskV2 ⟨⟨"g1", "Read a book", 1000, 3600, "ongoing", none⟩,
        [⟨"t1", false⟩], 0, []⟩ "t1" false 500 false false false).transactions =
      [] := by
  decide

/-- C2 (amended): when the last task of an ongoing goal is toggled
completed at or after the deadline with no write failing — the second
variant marks the goal failed with balance and ledger untouched only
when the current time is strictly past the deadline; at exactly the
deadline it instead completes the goal and credits the balance; the
first variant leaves the goal's status ongoing in both cases, with
balance and ledger untouched. -/
theorem goal_completion_at_or_after_deadline (st : CardState)
    (taskId : String) (completed : Bool) (now : Int)
    (hall : (toggledTasks st.tasks taskId completed).all
        (fun t => t.completed) = true)
    (hst : st.goal.status = "ongoing") :
    (now > st.goal.deadline →
      (toggleTaskV2 st taskId completed now false false false).goal.status =
        "failed" ∧
      (toggleTaskV2 st taskId completed now false false false).balance =
        st.balance ∧
      (toggleTaskV2 st taskId completed now false false false).transactions =
        st.transactions) ∧
    (now = st.goal.deadline →
      (toggleTaskV2 st taskId completed now false false false).goal.status =
        "completed" ∧
      (toggleTaskV2 st taskId completed now false false false).balance =
        st.balance + st.goal.time_allocated) ∧
    (now ≥ st.goal.deadline →
      (toggleTaskV1 st taskId completed now false false false false).goal.status =
        "ongoing" ∧
      (toggleTaskV1 st taskId completed now false false false false).balance =
        st.balance ∧
      (toggleTaskV1 st taskId completed now false false false false).transactions =
        st.transactions) := by
  refine ⟨?_, ?_, ?_⟩
  · intro hover
    have h : st.goal.deadline < now := hover
    refine ⟨?_, ?_, ?_⟩ <;>
      simp [toggleTaskV2, markGoalFailed, hall, hst, h]
  · intro heq
    have h : ¬ (st.goal.deadline < now) := by omega
    refine ⟨?_, ?_⟩ <;>
      simp [toggleTaskV2, completeGoalEarlyV2, hall, hst, h]
  · intro hge
    have h : ¬ (st.goal.deadline > now) := by omega
    refine ⟨?_, ?_, ?_⟩ <;>
      simp [toggleTaskV1, hall, hst, h]

/-- Witness for C2's amended theorem: the second variant fails a
one-task goal completed after its deadline. -/
theorem goal_completion_at_or_after_deadline_witness :
    (toggleTaskV2 ⟨⟨"g2", "Write spec", 1000, 3600, "ongoing", none⟩,
        [⟨"t1", false⟩], 5, []⟩ "t1" false 2000 false false false).goal.status =
      "failed" ∧
    (toggleTaskV2 ⟨⟨"g2", "Write spec", 1000, 3600, "ongoing", none⟩,
        [⟨"t1", false⟩], 5, []⟩ "t1" false 2000 false false false).balance = 5 ∧
    (toggleTaskV2 ⟨⟨"g2", "Write spec", 1000, 3600, "ongoing", none⟩,
        [⟨"t1", false⟩], 5, []⟩ "t1" false 2000 false false false).transactions =
      [] :=
  (goal_completion_at_or_after_deadline
      ⟨⟨"g2", "Write spec", 1000, 3600, "ongoing", none⟩,
       [⟨"t1", false⟩], 5, []⟩ "t1" false 2000 (by decide) rfl).1 (by decide)

/-- Counterexample to C2 as stated: in the first `GoalCard` variant a
goal-completion event after the deadline leaves the goal's status
`ongoing` — it never becomes `failed`. -/
theorem v1_overdue_completion_leaves_goal_ongoing :
    (toggleTaskV1 ⟨⟨"g3", "Ship it", 1000, 3600, "ongoing", none⟩,
        [⟨"t1", false⟩], 0, []⟩ "t1" false 2000
        false false false false).goal.status = "ongoing" ∧
    (toggleTaskV1 ⟨⟨"g3", "Ship it", 1000, 3600, "ongoing", none⟩,
        [⟨"t1", false⟩], 0, []⟩ "t1" false 2000
        false false false false).goal.status ≠ "failed" := by
  decide

end TimeWallet
